import Mathlib

/-!
Verification development for the big-talk conversational-agent engine
(src/libs/big-talk/src/big_talk).  The Python sources are shallowly
embedded: TypedDict messages become inductive types, async functions
become pure functions returning values or `Except` errors, dicts become
insertion-ordered association lists, and exceptions become an explicit
`PyErr` type.
-/

namespace BigTalk

/-- Python exceptions that the embedded code can raise. -/
inductive PyErr where
  | valueError (msg : String)
  | typeError (msg : String)
  | notImplementedError (msg : String)
  | indexError
  | keyError (k : String)
deriving Repr, DecidableEq

/-! ## Python values

Tool functions receive and return dynamically typed Python values.
`vOpaque tyName reprStr` models an arbitrary object that `json.dumps`
cannot serialize; it carries the name of its Python type and its
`str()` rendering. -/

inductive PyVal where
  | vStr (s : String)
  | vInt (n : Int)
  | vBool (b : Bool)
  | vNone
  | vList (xs : List PyVal)
  | vDict (xs : List (String × PyVal))
  | vOpaque (tyName : String) (reprStr : String)
deriving Repr

/-- Decidable equality for `PyVal`, modelling Python `==` on these shapes. -/
def PyVal.beq : PyVal → PyVal → Bool
  | .vStr a, .vStr b => a == b
  | .vInt a, .vInt b => a == b
  | .vBool a, .vBool b => a == b
  | .vNone, .vNone => true
  | .vList a, .vList b => beqList a b
  | .vDict a, .vDict b => beqDict a b
  | .vOpaque a b, .vOpaque c d => a == c && b == d
  | _, _ => false
where
  beqList : List PyVal → List PyVal → Bool
    | [], [] => true
    | x :: xs, y :: ys => PyVal.beq x y && beqList xs ys
    | _, _ => false
  beqDict : List (String × PyVal) → List (String × PyVal) → Bool
    | [], [] => true
    | (k, x) :: xs, (l, y) :: ys => k == l && PyVal.beq x y && beqDict xs ys
    | _, _ => false

instance : BEq PyVal := ⟨PyVal.beq⟩

/-- Python `type(v).__name__`, used for `isinstance` checks against
hidden default types. -/
def PyVal.typeTag : PyVal → String
  | .vStr _ => "str"
  | .vInt _ => "int"
  | .vBool _ => "bool"
  | .vNone => "NoneType"
  | .vList _ => "list"
  | .vDict _ => "dict"
  | .vOpaque t _ => t

/-! ## Insertion-ordered dictionaries

Python dicts preserve insertion order; assignment to an existing key
updates it in place, assignment to a fresh key appends. -/

def dictGet {α : Type} : List (String × α) → String → Option α
  | [], _ => none
  | (k, v) :: rest, key => if key = k then some v else dictGet rest key

def dictContains {α : Type} (d : List (String × α)) (key : String) : Bool :=
  (dictGet d key).isSome

def dictSet {α : Type} : List (String × α) → String → α → List (String × α)
  | [], key, v => [(key, v)]
  | (k, w) :: rest, key, v =>
      if key = k then (k, v) :: rest else (k, w) :: dictSet rest key v

def dictRemove {α : Type} : List (String × α) → String → List (String × α)
  | [], _ => []
  | (k, w) :: rest, key => if key = k then rest else (k, w) :: dictRemove rest key

/-- Python dict merge `\x7b**a, **b\x7d`: keys of `a` in order (values
overridden by `b` where present), then keys of `b` not in `a`. -/
def dictMerge (a b : List (String × PyVal)) : List (String × PyVal) :=
  (a.map (fun p => (p.1, (dictGet b p.1).getD p.2)))
    ++ b.filter (fun p => (dictGet a p.1).isNone)

/-! ## JSON serialization (`json.dumps(result, ensure_ascii=False)`)

With `ensure_ascii=False`, only `"`, `\` and control characters below
U+0020 are escaped; all other characters (including non-ASCII) pass
through unchanged. -/

def hexDigit (n : Nat) : Char :=
  if n < 10 then Char.ofNat (48 + n) else Char.ofNat (87 + n)

def jsonEscapeChar (c : Char) : String :=
  if c = '"' then "\\\""
  else if c = '\\' then "\\\\"
  else if c = '\n' then "\\n"
  else if c = '\t' then "\\t"
  else if c = '\r' then "\\r"
  else if c = '\x08' then "\\b"
  else if c = '\x0c' then "\\f"
  else if c.toNat < 32 then
    "\\u00" ++ String.singleton (hexDigit (c.toNat / 16))
      ++ String.singleton (hexDigit (c.toNat % 16))
  else String.singleton c

def escapeChars : List Char → String
  | [] => ""
  | c :: cs => jsonEscapeChar c ++ escapeChars cs

def jsonQuote (s : String) : String :=
  "\"" ++ escapeChars s.data ++ "\""

mutual

/-- Embedding of `json.dumps(v, ensure_ascii=False)`.  `Except.error ()`
models the `TypeError` raised on non-serializable objects. -/
def jsonDumps : PyVal → Except Unit String
  | .vStr s => .ok (jsonQuote s)
  | .vInt n => .ok (toString n)
  | .vBool b => .ok (if b then "true" else "false")
  | .vNone => .ok "null"
  | .vList xs => do
      let parts ← jsonDumpsList xs
      .ok ("[" ++ String.intercalate ", " parts ++ "]")
  | .vDict xs => do
      let parts ← jsonDumpsDict xs
      .ok ("\x7b" ++ String.intercalate ", " parts ++ "\x7d")
  | .vOpaque _ _ => .error ()

def jsonDumpsList : List PyVal → Except Unit (List String)
  | [] => .ok []
  | x :: xs => do
      let s ← jsonDumps x
      let rest ← jsonDumpsList xs
      .ok (s :: rest)

def jsonDumpsDict : List (String × PyVal) → Except Unit (List String)
  | [] => .ok []
  | (k, v) :: xs => do
      let s ← jsonDumps v
      let rest ← jsonDumpsDict xs
      .ok ((jsonQuote k ++ ": " ++ s) :: rest)

end

/-- The apostrophe character used by Python `repr` of strings. -/
def quoteChar : Char := Char.ofNat 39

mutual

/-- Python `repr(v)` for the embedded value shapes (string escaping inside
reprs is not modelled; it is only reached through the `str()` fallback). -/
def reprPy : PyVal → String
  | .vStr s => String.singleton quoteChar ++ s ++ String.singleton quoteChar
  | .vInt n => toString n
  | .vBool b => if b then "True" else "False"
  | .vNone => "None"
  | .vList xs => "[" ++ String.intercalate ", " (reprPyList xs) ++ "]"
  | .vDict xs => "\x7b" ++ String.intercalate ", " (reprPyDict xs) ++ "\x7d"
  | .vOpaque _ r => r

def reprPyList : List PyVal → List String
  | [] => []
  | x :: xs => reprPy x :: reprPyList xs

def reprPyDict : List (String × PyVal) → List String
  | [] => []
  | (k, v) :: xs =>
      (String.singleton quoteChar ++ k ++ String.singleton quoteChar ++ ": " ++ reprPy v)
        :: reprPyDict xs

end

/-- Python `str(v)`. -/
def strPy : PyVal → String
  | .vStr s => s
  | .vBool b => if b then "True" else "False"
  | .vNone => "None"
  | v => reprPy v

/-! ## Message model (message.py) -/

/-- ToolUse content block (message.py lines 4-9). -/
structure ToolUse where
  id : String
  name : String
  params : List (String × PyVal)
  metadata : Option (List (String × PyVal))
deriving Repr

/-- ToolResult (message.py lines 12-16). -/
structure ToolResult where
  tool_use_id : String
  result : String
  is_error : Bool
deriving Repr, DecidableEq

/-- Assistant content blocks (message.py: Text, Thinking, ToolUse). -/
inductive ContentBlock where
  | text (text : String)
  | thinking (thinking : String) (signature : String)
  | toolUse (tu : ToolUse)
deriving Repr

/-- Messages, a tagged variant keyed by role (message.py lines 30-71). -/
inductive Message where
  | user (id : String) (content : String)
  | system (content : String)
  | tool (id : String) (parent_id : String) (content : List ToolResult)
  | assistant (id : String) (parent_id : String) (content : List ContentBlock)
      (is_aggregate : Bool)
  | app (id : String) (parent_id : Option String) (type : String) (content : PyVal)
deriving Repr

/-- The `role` discriminator of a message. -/
def Message.role : Message → String
  | .user _ _ => "user"
  | .system _ => "system"
  | .tool _ _ _ => "tool"
  | .assistant _ _ _ _ => "assistant"
  | .app _ _ _ _ => "app"

/-- Python `message.get(\x22is_aggregate\x22)` truthiness: only assistant
messages carry the key; it is falsy on every other role. -/
def Message.isAggregate : Message → Bool
  | .assistant _ _ _ agg => agg
  | _ => false

/-! ## Tool model (tool.py) -/

/-- A tool function: receives the keyword parameters of the `ToolUse`
and either returns a value or raises (Except.error carries `str(e)`). -/
def ToolFunc : Type := List (String × PyVal) → Except String PyVal

/-! ## JSON-Schema-shaped parameter descriptions (tool.py lines 13-47)

The Python code builds plain dicts (`Property`, `EnumProperty`,
`ArrayProperty`, `ObjectProperty`, `DictionaryProperty`, or an arbitrary
pydantic-generated dict).  `JSchema` is one recursive shape covering all
of them; absent keys are `none`.  A present-with-`None` `description`
key and an absent `description` key are conflated into `none` (the
distinction is never observable through the claims). -/

inductive JSchema where
  | mk (ty : Option String) (description : Option String)
      (enumVals : Option (List String)) (items : Option JSchema)
      (properties : Option (List (String × JSchema)))
      (required : Option (List String))
      (additionalProperties : Option Bool)
      (defs : Option (List (String × JSchema)))
deriving Repr

def JSchema.ty : JSchema → Option String
  | .mk t _ _ _ _ _ _ _ => t

def JSchema.description : JSchema → Option String
  | .mk _ d _ _ _ _ _ _ => d

def JSchema.properties : JSchema → Option (List (String × JSchema))
  | .mk _ _ _ _ p _ _ _ => p

def JSchema.required : JSchema → Option (List String)
  | .mk _ _ _ _ _ r _ _ => r

def JSchema.defs : JSchema → Option (List (String × JSchema))
  | .mk _ _ _ _ _ _ _ d => d

/-- Python `schema[\x22description\x22] = d` on any of the schema dicts. -/
def JSchema.setDescription : JSchema → Option String → JSchema
  | .mk t _ e i p r a d, desc => .mk t desc e i p r a d

/-- The `Tool` dataclass (tool.py lines 50-56). -/
structure Tool where
  name : String
  description : String
  parameters : JSchema
  func : ToolFunc
  metadata : List (String × PyVal)

/-! ## Tool execution (tool_execution.py) -/

/-- The `ToolExecutionContext` dataclass exactly as declared in
tool_execution.py lines 11-15: `tool_uses`, `tools`, `messages` — and
no `iteration` field. -/
structure ToolExecutionContext where
  tool_uses : List ToolUse
  tools : List Tool
  messages : List Message

/-- The keyword names accepted by the generated dataclass `__init__`,
i.e. the declared fields of `ToolExecutionContext`. -/
def toolExecutionContextFields : List String := ["tool_uses", "tools", "messages"]

/-- The dataclass constructor as invoked with keyword arguments.  A
Python dataclass `__init__` raises `TypeError` when passed a keyword
that is not a declared field.  Both the streaming loop (stream.py lines
60-65), the send loop (loop.py lines 25-30) and `execute_tool`
(big_talk.py lines 145-150) pass `iteration=...`, which is not among
`toolExecutionContextFields`. -/
def mkToolExecutionContextKw (tool_uses : List ToolUse) (tools : List Tool)
    (messages : List Message) (_iteration : Nat) :
    Except PyErr ToolExecutionContext :=
  if (["tool_uses", "tools", "messages", "iteration"].all
      (fun k => toolExecutionContextFields.contains k)) then
    .ok ⟨tool_uses, tools, messages⟩
  else
    .error (.typeError
      "ToolExecutionContext.__init__ got an unexpected keyword argument iteration")

/-- Serialization of a successful tool return value
(`BaseToolExecutionHandler._serialize_result`, tool_execution.py lines
76-87). -/
def serializeResult (result : PyVal) : String :=
  match result with
  | .vStr s => s
  | .vNone => "null"
  | v =>
      match jsonDumps v with
      | .ok s => s
      | .error _ => strPy v

/-- Task body for one resolved tool
(`BaseToolExecutionHandler._execute_tool`, tool_execution.py lines
54-74).  The try/except around the call captures any raised exception
into an `is_error=true` result. -/
def executeToolTask (tool : Tool) (tu : ToolUse) : ToolResult :=
  match tool.func tu.params with
  | .ok v => { tool_use_id := tu.id, result := serializeResult v, is_error := false }
  | .error e => { tool_use_id := tu.id, result := e, is_error := true }

/-- `tool_map = \x7btool.name: tool for tool in context.tools\x7d`
(tool_execution.py line 28); later tools override earlier ones on a
name clash, as in a Python dict comprehension. -/
def buildToolMap (tools : List Tool) : List (String × Tool) :=
  tools.foldl (fun m t => dictSet m t.name t) []

/-- The terminal tool-execution handler
(`BaseToolExecutionHandler.__call__`, tool_execution.py lines 26-43),
with each returned task already evaluated to its `ToolResult`. -/
def baseToolExecutionHandler (ctx : ToolExecutionContext) : List ToolResult :=
  let tool_map := buildToolMap ctx.tools
  ctx.tool_uses.map (fun tu =>
    match dictGet tool_map tu.name with
    | none =>
        { tool_use_id := tu.id
          result := "Tool " ++ tu.name ++ " not found"
          is_error := true }
    | some tool =>
        let tu2 : ToolUse :=
          { tu with metadata := some (dictMerge tool.metadata (tu.metadata.getD [])) }
        executeToolTask tool tu2)

/-! ## Model identifier parsing and the provider registry (big_talk.py) -/

/-- Split a character list at the first occurrence of `sep`, returning
the parts before and after it; `none` when `sep` does not occur.  This
models Python `s.split(sep, 1)` restricted to the separator-present
case. -/
def splitFirstChar : List Char → Char → Option (List Char × List Char)
  | [], _ => none
  | c :: rest, sep =>
      if c = sep then some ([], rest)
      else
        match splitFirstChar rest sep with
        | none => none
        | some (l, r) => some (c :: l, r)

/-- `BigTalk._parse_model` (big_talk.py lines 47-52): reject identifiers
without a `/` (Python `'/' not in model`), otherwise split on the first
`/` (Python `model.split('/', 1)`). -/
def parseModel (model : String) : Except PyErr (String × String) :=
  if model.data.contains '/' then
    match splitFirstChar model.data '/' with
    | some (before, after) => .ok (String.mk before, String.mk after)
    | none => .ok (model, "")  -- unreachable: guarded by the membership test
  else
    .error (.valueError
      ("Invalid model name: " ++ model ++ ". Expected format: \"provider/model_name\"."))

/-- A provider factory: the Python zero-argument callable.  `id` models
the identity of the function object so that invocations can be counted;
`produce` is its return value. -/
structure Factory (P : Type) where
  id : String
  produce : P
deriving Repr, DecidableEq

/-- The per-engine registry state: the `_providers` instance cache and
the `_provider_factories` map (big_talk.py lines 19-23). -/
structure ProviderRegistry (P : Type) where
  providers : List (String × P)
  provider_factories : List (String × Factory P)
deriving Repr, DecidableEq

/-- `BigTalk.add_provider` (big_talk.py lines 40-45).  Returns the raise
outcome together with the registry state afterwards: the `ValueError`
is raised before any mutation, so the state is returned unchanged in
that case. -/
def addProvider {P : Type} (st : ProviderRegistry P) (name : String)
    (provider_factory : Factory P) (override : Bool) :
    Except PyErr Unit × ProviderRegistry P :=
  if !override && (dictContains st.providers name || dictContains st.provider_factories name) then
    (.error (.valueError ("Provider \"" ++ name ++ "\" is already registered.")), st)
  else
    let fs := dictSet st.provider_factories name provider_factory
    let ps := if dictContains st.providers name then dictRemove st.providers name
              else st.providers
    (.ok (), { providers := ps, provider_factories := fs })

/-- `BigTalk._get_provider` (big_talk.py lines 54-62).  On success it
returns the provider, the updated registry, and the list of factory ids
invoked during the call (empty on a cache hit, a singleton on first
instantiation). -/
def getProvider {P : Type} (st : ProviderRegistry P) (provider : String) :
    Except PyErr (P × ProviderRegistry P × List String) :=
  match dictGet st.providers provider with
  | some llm => .ok (llm, st, [])
  | none =>
      match dictGet st.provider_factories provider with
      | some f =>
          .ok (f.produce,
               { st with providers := dictSet st.providers provider f.produce },
               [f.id])
      | none =>
          .error (.notImplementedError
            ("Provider \"" ++ provider ++ "\" is not supported."))

/-- A sequence of provider dispatches against one engine instance,
threading the registry state and accumulating the factory-invocation
log.  An unknown provider name raises, aborting the sequence. -/
def runDispatches {P : Type} (st : ProviderRegistry P) :
    List String → ProviderRegistry P × List String
  | [] => (st, [])
  | n :: rest =>
      match getProvider st n with
      | .ok (_, st2, log) =>
          let out := runDispatches st2 rest
          (out.1, log ++ out.2)
      | .error _ => (st, [])

/-! ## Middleware stack (middleware/middleware_stack.py)

A handler is a function `C → R`; a middleware receives the next handler
and the context (`_MiddlewareWrapper.__call__` simply applies the
middleware to the next handler and the context). -/

def MwHandler (C R : Type) : Type := C → R

def Mw (C R : Type) : Type := MwHandler C R → C → R

/-- `MiddlewareStack` state: the registered middleware list and the base
(terminal) handler (middleware_stack.py lines 24-27). -/
structure MiddlewareStack (C R : Type) where
  middleware : List (Mw C R)
  base_handler : MwHandler C R

/-- `MiddlewareStack.use` (middleware_stack.py lines 29-32): append the
middleware to the registration list. -/
def MiddlewareStack.use {C R : Type} (s : MiddlewareStack C R) (mw : Mw C R) :
    MiddlewareStack C R :=
  { s with middleware := s.middleware ++ [mw] }

/-- `_MiddlewareWrapper` (middleware_stack.py lines 7-13). -/
def wrapMw {C R : Type} (mw : Mw C R) (next_handler : MwHandler C R) : MwHandler C R :=
  fun ctx => mw next_handler ctx

/-- `MiddlewareStack.build` (middleware_stack.py lines 34-38): start from
the base handler and wrap in reversed registration order. -/
def MiddlewareStack.build {C R : Type} (s : MiddlewareStack C R) : MwHandler C R :=
  s.middleware.reverse.foldl (fun handler mw => wrapMw mw handler) s.base_handler

/-! ## The conversation loop (stream.py) and `BigTalk.stream`

The provider is abstracted as `providerStream : Nat → List Message`,
the sequence of messages the resolved provider stream yields in a given
iteration (the tests' MockToolProvider pops one canned response per
call).  `uuid4()` for the synthesized tool messages is modelled as a
deterministic fresh string per iteration and group index, since the ids
are opaque. -/

/-- The outcome of consuming the `stream` async generator to exhaustion:
the messages yielded before the generator either finished (`error =
none`) or raised (`error = some e`), plus the number of times
`ctx.get_llm_provider()` resolved a provider. -/
structure LoopOutcome where
  events : List Message
  error : Option PyErr
  resolverCalls : Nat
deriving Repr

/-- Tool-use blocks of an assistant message content list. -/
def toolUsesOf (content : List ContentBlock) : List ToolUse :=
  content.filterMap (fun b => match b with
    | .toolUse tu => some tu
    | _ => none)

/-- Processing of one yielded event inside the loop (stream.py lines
40-53): deltas are skipped; app messages and aggregates are appended to
the working history; aggregates are additionally scanned for tool_use
blocks recorded as (parent_id, tool_use). -/
def processEvent (acc : List Message × List (String × ToolUse)) (m : Message) :
    List Message × List (String × ToolUse) :=
  let is_app := m.role = "app"
  if ¬ is_app ∧ ¬ m.isAggregate then acc
  else
    let history := acc.1 ++ [m]
    if is_app then (history, acc.2)
    else
      match m with
      | .assistant pid _ content _ =>
          (history, acc.2 ++ (toolUsesOf content).map (fun tu => (pid, tu)))
      | _ => (history, acc.2)

/-- Folding `processEvent` over all events of one iteration. -/
def processEvents (history : List Message) (msgs : List Message) :
    List Message × List (String × ToolUse) :=
  msgs.foldl processEvent (history, [])

/-- `results_by_parent` grouping (stream.py lines 71-73): a defaultdict
keyed in first-seen parent order, each parent keeping its results in
recording order. -/
def groupPairs (l : List (String × ToolResult)) : List (String × List ToolResult) :=
  l.foldl (fun acc p =>
    if dictContains acc p.1 then
      acc.map (fun g => if g.1 = p.1 then (g.1, g.2 ++ [p.2]) else g)
    else acc ++ [(p.1, [p.2])]) []

/-- The body of `BaseStreamHandler.__call__` (stream.py lines 27-84),
recursing on the remaining iteration budget.  Each iteration resolves
the provider once via the stream-iteration terminal handler
(stream_iteration.py lines 34-43) and consumes its events. -/
def streamLoopGo (providerStream : Nat → List Message) (tools : List Tool) :
    Nat → Nat → List Message → LoopOutcome
  | 0, _, _ => { events := [], error := none, resolverCalls := 0 }
  | fuel + 1, iteration, history =>
      let msgs := providerStream iteration
      let out := processEvents history msgs
      if out.2.isEmpty then
        { events := msgs, error := none, resolverCalls := 1 }
      else
        match mkToolExecutionContextKw (out.2.map Prod.snd) tools out.1 iteration with
        | .error e => { events := msgs, error := some e, resolverCalls := 1 }
        | .ok ctx =>
            let results := baseToolExecutionHandler ctx
            let grouped := groupPairs ((out.2.map Prod.fst).zip results)
            let toolMsgs := grouped.enum.map (fun g =>
              Message.tool ("uuid-" ++ toString iteration ++ "-" ++ toString g.1)
                g.2.1 g.2.2)
            let rest := streamLoopGo providerStream tools fuel (iteration + 1)
              (out.1 ++ toolMsgs)
            { events := msgs ++ toolMsgs ++ rest.events
              error := rest.error
              resolverCalls := 1 + rest.resolverCalls }

/-- `BigTalk.stream` (big_talk.py lines 105-131) as observed by a caller
consuming the generator: the user-message validation runs before
anything else; afterwards the terminal streaming handler drives the
loop. -/
def bigTalkStream (providerStream : Nat → List Message) (tools : List Tool)
    (messages : List Message) (max_iterations : Nat) : LoopOutcome :=
  if messages.any (fun m => m.role = "user") then
    streamLoopGo providerStream tools max_iterations 0 messages
  else
    { events := []
      error := some (.valueError
        "At least one user message is required to generate a response.")
      resolverCalls := 0 }

/-! ## `BigTalk.send` (big_talk.py lines 68-103)

The provider is abstracted as `providerSend : Nat → Message`, the
aggregate returned by `provider.send` in a given iteration. -/

/-- The outcome of `send`: either the slice of history appended after
the inputs, or the exception raised; plus the number of provider
resolutions (`_get_llm_provider` runs once, after validation). -/
structure SendOutcome where
  result : Except PyErr (List Message)
  resolverCalls : Nat
deriving Repr

/-- `extract_tool_uses` (loop.py lines 10-18): pair each tool_use block
of the message with the message id.  The argument is an
assistant-produced `OutputMessage` in the source. -/
def extractToolUses (m : Message) : List (String × ToolUse) :=
  match m with
  | .assistant pid _ content _ => (toolUsesOf content).map (fun tu => (pid, tu))
  | _ => []

/-- The iteration loop of `BigTalk.send` (big_talk.py lines 79-103),
including `use_tools` (loop.py lines 21-39); returns the full final
history. -/
def sendLoopGo (providerSend : Nat → Message) (tools : List Tool) :
    Nat → Nat → List Message → Except PyErr (List Message)
  | 0, _, history => .ok history
  | fuel + 1, iteration, history =>
      let message := providerSend iteration
      let history2 := history ++ [message]
      let tup := extractToolUses message
      if tup.isEmpty then .ok history2
      else
        match mkToolExecutionContextKw (tup.map Prod.snd) tools history2 iteration with
        | .error e => .error e
        | .ok ctx =>
            let results := baseToolExecutionHandler ctx
            let grouped := groupPairs ((tup.map Prod.fst).zip results)
            let toolMsgs := grouped.enum.map (fun g =>
              Message.tool ("uuid-" ++ toString iteration ++ "-" ++ toString g.1)
                g.2.1 g.2.2)
            sendLoopGo providerSend tools fuel (iteration + 1) (history2 ++ toolMsgs)

/-- `BigTalk.send` (big_talk.py lines 68-103): validation first, then a
single provider resolution, then the loop; on success the appended
slice `current_history[len(messages):]` is returned. -/
def bigTalkSend (providerSend : Nat → Message) (tools : List Tool)
    (messages : List Message) (max_iterations : Nat) : SendOutcome :=
  if messages.any (fun m => m.role = "user") then
    { result := (sendLoopGo providerSend tools max_iterations 0 messages).map
        (fun h => h.drop messages.length)
      resolverCalls := 1 }
  else
    { result := .error (.valueError
        "At least one user message is required to generate a response.")
      resolverCalls := 0 }

/-! ## Tool schema reflection (tool.py lines 58-251)

Python type annotations are embedded as `PyType`.  `union` covers both
`typing.Union` and the `X | Y` `UnionType`; `noneType` is `type(None)`;
`listTy []` is a bare `list` annotation while `listTy (a :: _)` is
`list[a]`; `typedDict` carries `get_type_hints` results plus
`__required_keys__`; `pydantic` carries the dict returned by
`model_json_schema()` after its `title` has been dropped; `anyType`
covers `typing.Any` and every other unsupported annotation. -/

inductive AnnotArg where
  | strArg (s : String)
  | otherArg
deriving Repr

inductive PyType where
  | str
  | int
  | float
  | bool
  | noneType
  | union (args : List PyType)
  | annotated (inner : PyType) (extras : List AnnotArg)
  | literal (vals : List String)
  | listTy (args : List PyType)
  | typedDict (hints : List (String × PyType)) (requiredKeys : List String)
  | dict
  | pydantic (schema : JSchema)
  | anyType
deriving Repr

/-- The `a is not NoneType` test used on union arguments. -/
def PyType.isNone : PyType → Bool
  | .noneType => true
  | _ => false

/-- The first string among the `Annotated` extras becomes the
description (tool.py lines 160-166). -/
def firstStringExtra : List AnnotArg → Option String
  | [] => none
  | .strArg s :: _ => some s
  | .otherArg :: rest => firstStringExtra rest

/-- Python truthiness of an optional string (`None` and `\x22\x22` are
falsy). -/
def strTruthy : Option String → Bool
  | none => false
  | some s => s ≠ ""

/-- Python `a or b` on description values, as in
`schema[\x22description\x22] = description or schema.get(\x22description\x22, ...)`. -/
def pyDescOr (a b : Option String) : Option String :=
  if strTruthy a then a else b

/-- The `while get_origin(val_type) is Annotated` unwrapping loop inside
the TypedDict branch (tool.py lines 224-225). -/
def unwrapAnnotated : PyType → PyType
  | .annotated inner _ => unwrapAnnotated inner
  | t => t

/-- Nullability test of the TypedDict branch (tool.py lines 227-231): a
key is nullable iff its (unwrapped) type is a union admitting `None`. -/
def isNullable (t : PyType) : Bool :=
  match unwrapAnnotated t with
  | .union args => args.any PyType.isNone
  | _ => false

/-- The `required` filter of the TypedDict branch (tool.py lines
219-235): keep the required keys that are not nullable.  `hints[key]`
raises `KeyError` when a required key has no hint. -/
def requiredNonNullable (hints : List (String × PyType)) :
    List String → Except PyErr (List String)
  | [] => .ok []
  | k :: rest => do
      match dictGet hints k with
      | none => .error (.keyError k)
      | some v =>
          let tail ← requiredNonNullable hints rest
          .ok (if isNullable v then tail else k :: tail)

/-- An empty dict schema `\x7b\x7d` (the `items` of a bare `list`). -/
def emptySchema : JSchema := .mk none none none none none none none none

mutual

/-- `Tool._schema_from_type` (tool.py lines 154-251).  The function
first extracts an `Annotated` description and re-evaluates the origin
on the unwrapped inner type (lines 158-168), then dispatches on the
refreshed origin/type. -/
def schemaFromType : PyType → Except PyErr JSchema
  | .annotated inner extras => schemaCore inner (firstStringExtra extras)
  | t => schemaCore t none
termination_by t => (sizeOf t, 1)

/-- The dispatch chain of `Tool._schema_from_type` after the `Annotated`
unwrap (tool.py lines 170-251), with `description` the extracted
annotation string (or `none`). -/
def schemaCore (t : PyType) (description : Option String) : Except PyErr JSchema :=
  match t with
  | .union args =>
      -- tool.py lines 173-180: both branches take the first non-None
      -- argument; remaining union branches are silently ignored.
      match h : args.filter (fun a => !a.isNone) with
      | [] => .error .indexError
      | t0 :: _ => do
          let schema ← schemaFromType t0
          .ok (schema.setDescription (pyDescOr description schema.description))
  | .pydantic s =>
      -- tool.py lines 183-187 (`title` already popped in the embedding).
      .ok (s.setDescription (pyDescOr description s.description))
  | .str => .ok (.mk (some "string") description none none none none none none)
  | .int => .ok (.mk (some "integer") description none none none none none none)
  | .float => .ok (.mk (some "number") description none none none none none none)
  | .bool => .ok (.mk (some "boolean") description none none none none none none)
  | .literal vals =>
      .ok (.mk (some "string") description (some vals) none none none none none)
  | .listTy args =>
      match args with
      | [] => .ok (.mk (some "array") description none (some emptySchema)
          none none none none)
      | a :: _ => do
          let item ← schemaFromType a
          .ok (.mk (some "array") description none (some item) none none none none)
  | .typedDict hints requiredKeys => do
      let props ← schemaProps hints
      match requiredNonNullable hints requiredKeys with
      | .error e => .error e
      | .ok req =>
          .ok (.mk (some "object") description none none (some props) (some req)
            none none)
  | .dict =>
      .ok (.mk (some "object") description none none none none (some true) none)
  | _ => .error (.notImplementedError "Type is not supported.")
termination_by (sizeOf t, 0)
decreasing_by
  all_goals first
    | decreasing_tactic
    | (simp_wf
       have ht0 : t0 ∈ List.filter (fun a => !a.isNone) args := by
         rw [h]
         exact List.mem_cons_self _ _
       have h2 := List.sizeOf_lt_of_mem (List.mem_of_mem_filter ht0)
       apply Prod.Lex.left
       omega)

/-- The properties loop of the TypedDict branch (tool.py lines 210-217). -/
def schemaProps : List (String × PyType) → Except PyErr (List (String × JSchema))
  | [] => .ok []
  | (k, v) :: rest => do
      let s ← schemaFromType v
      let tail ← schemaProps rest
      .ok ((k, s) :: tail)
termination_by l => (sizeOf l, 1)

end

mutual

/-- `Tool._hoist_definitions` (tool.py lines 135-152): pop every nested
`$defs` mapping encountered while walking the schema tree, returning
the cleaned schema and the collected definitions (own defs first, then
those found in children). -/
def hoistSchema : JSchema → JSchema × List (String × JSchema)
  | .mk ty d e items props req ap defs =>
      let own := defs.getD []
      let itemsOut :=
        match items with
        | none => (none, [])
        | some s =>
            let r := hoistSchema s
            (some r.1, r.2)
      let propsOut :=
        match props with
        | none => (none, [])
        | some l =>
            let r := hoistProps l
            (some r.1, r.2)
      (.mk ty d e itemsOut.1 propsOut.1 req ap none,
        own ++ itemsOut.2 ++ propsOut.2)

def hoistProps : List (String × JSchema) → List (String × JSchema) × List (String × JSchema)
  | [] => ([], [])
  | (k, s) :: rest =>
      let r := hoistSchema s
      let tail := hoistProps rest
      ((k, r.1) :: tail.1, r.2 ++ tail.2)

end

/-- One reflected function parameter: its name and its default value
(`none` models `inspect.Parameter.empty`, i.e. no default). -/
structure PyParam where
  name : String
  default : Option PyVal

/-- The parameter loop of `Tool.from_func` (tool.py lines 95-119),
producing the `properties` entries and the `required` list in
declaration order.  `param_docs` are the docstring parameter
descriptions (docstring parsing is done by the external
`docstring_parser` library and is therefore an input here). -/
def fromFuncLoop (typeHints : List (String × PyType))
    (paramDocs : List (String × String))
    (hiddenDefaultValues : List PyVal) (hiddenDefaultTypes : List String) :
    List PyParam → Except PyErr (List (String × JSchema) × List String)
  | [] => .ok ([], [])
  | p :: rest =>
      if p.name = "self" ∨ p.name = "cls" then
        fromFuncLoop typeHints paramDocs hiddenDefaultValues hiddenDefaultTypes rest
      else
        let isRequired := p.default.isNone
        let hidden :=
          match p.default with
          | none => false
          | some d =>
              hiddenDefaultValues.contains d
                || hiddenDefaultTypes.contains d.typeTag
        if hidden then
          fromFuncLoop typeHints paramDocs hiddenDefaultValues hiddenDefaultTypes rest
        else do
          let pythonType := (dictGet typeHints p.name).getD .anyType
          let schema ← schemaFromType pythonType
          let schema :=
            match dictGet paramDocs p.name with
            | some doc =>
                if doc = "" then schema
                else if strTruthy schema.description then
                  schema.setDescription
                    (some (schema.description.getD "" ++ "\n\n" ++ doc))
                else schema.setDescription (some doc)
            | none => schema
          let tail ← fromFuncLoop typeHints paramDocs hiddenDefaultValues
            hiddenDefaultTypes rest
          .ok ((p.name, schema) :: tail.1,
               if isRequired then p.name :: tail.2 else tail.2)

/-- Attach the hoisted `$defs` to the root parameters (tool.py lines
127-129): only added when non-empty. -/
def JSchema.setDefs : JSchema → List (String × JSchema) → JSchema
  | .mk t d e i p r a _, defs =>
      if defs.isEmpty then .mk t d e i p r a none
      else .mk t d e i p r a (some defs)

/-- `Tool.from_func` (tool.py lines 58-133).  The docstring description
(including the brace-safe `str.format` application) is produced by the
external `docstring_parser` library plus `str.format`, so the final
`description` string is taken as an input. -/
def fromFunc (funcName : String) (description : String) (func : ToolFunc)
    (params : List PyParam) (typeHints : List (String × PyType))
    (paramDocs : List (String × String)) (metadata : List (String × PyVal))
    (hiddenDefaultValues : List PyVal) (hiddenDefaultTypes : List String) :
    Except PyErr Tool := do
  let out ← fromFuncLoop typeHints paramDocs hiddenDefaultValues
    hiddenDefaultTypes params
  let raw : JSchema :=
    .mk (some "object") none none none (some out.1) (some out.2) none none
  let hoisted := hoistSchema raw
  .ok { name := funcName
        description := description
        parameters := hoisted.1.setDefs hoisted.2
        func := func
        metadata := metadata }

/-! ## Concrete instances used in scenario evaluations and witnesses -/

/-- The tool function of spec scenario S2: `add(a: int, b: int) -> a + b`. -/
def s2AddFunc : ToolFunc := fun params =>
  match dictGet params "a", dictGet params "b" with
  | some (.vInt a), some (.vInt b) => .ok (.vInt (a + b))
  | _, _ => .error "TypeError: add() argument binding failed"

/-- The registered `add` tool of scenario S2. -/
def s2AddTool : Tool :=
  { name := "add"
    description := ""
    parameters := .mk (some "object") none none none
      (some [("a", .mk (some "integer") none none none none none none none),
             ("b", .mk (some "integer") none none none none none none none)])
      (some ["a", "b"]) none none
    func := s2AddFunc
    metadata := [] }

/-- Iteration-0 aggregate of the S2 mock provider: one `ToolUse` block. -/
def s2Aggregate0 : Message :=
  .assistant "m1" "u1"
    [.toolUse { id := "t1", name := "add"
                params := [("a", .vInt 2), ("b", .vInt 3)], metadata := none }]
    true

/-- Iteration-1 aggregate of the S2 mock provider: `Text("5")`. -/
def s2Aggregate1 : Message := .assistant "m2" "u1" [.text "5"] true

/-- The S2 mock provider stream, indexed by iteration. -/
def s2Provider : Nat → List Message := fun it =>
  if it = 0 then [s2Aggregate0]
  else if it = 1 then [s2Aggregate1]
  else []

/-- The single input user message of scenario S2. -/
def s2UserMessage : Message := .user "u1" "hello"

/-- A tool that succeeds with the string "A". -/
def exOkTool : Tool :=
  { name := "ok_tool", description := "", parameters := emptySchema
    func := fun _ => .ok (.vStr "A"), metadata := [] }

/-- A tool whose function raises "boom". -/
def exBadTool : Tool :=
  { name := "bad_tool", description := "", parameters := emptySchema
    func := fun _ => .error "boom", metadata := [] }

/-- A tool-execution context exercising success, failure and a missing
tool name at once. -/
def exCtx : ToolExecutionContext :=
  { tool_uses :=
      [{ id := "1", name := "ok_tool", params := [], metadata := none },
       { id := "2", name := "bad_tool", params := [], metadata := none },
       { id := "3", name := "ghost", params := [], metadata := none }]
    tools := [exOkTool, exBadTool]
    messages := [] }

/-- A registry with two registered factories and an empty cache. -/
def exRegistry : ProviderRegistry Nat :=
  { providers := []
    provider_factories := [("x", { id := "fx", produce := 1 }),
                           ("y", { id := "fy", produce := 2 })] }

/-- Tracing middleware used to observe call order through the onion:
it records entry, delegates to the next handler, then records exit. -/
def traceMiddleware (tag : String) : Mw Unit (List String) :=
  fun next_handler ctx => ((tag ++ "_enter") :: next_handler ctx) ++ [tag ++ "_exit"]

/-- A terminal handler that records itself. -/
def terminalTrace : MwHandler Unit (List String) := fun _ => ["terminal"]

/-- Register one tracing middleware per tag via `use`, in list order. -/
def registerAll (tags : List String) : MiddlewareStack Unit (List String) :=
  tags.foldl (fun s t => s.use (traceMiddleware t))
    { middleware := [], base_handler := terminalTrace }

/-! ## Shared lemmas about the dictionary model -/

theorem dictGet_dictSet_self {α : Type} (l : List (String × α)) (k : String) (v : α) :
    dictGet (dictSet l k v) k = some v := by
  induction l with
  | nil => simp [dictSet, dictGet]
  | cons p rest ih =>
      obtain ⟨k1, v1⟩ := p
      by_cases hk : k = k1
      · simp [dictSet, hk, dictGet]
      · simp [dictSet, hk, dictGet, ih]

theorem dictGet_eq_none_of_not_mem {α : Type} (l : List (String × α)) (k : String)
    (h : k ∉ l.map Prod.fst) : dictGet l k = none := by
  induction l with
  | nil => rfl
  | cons p rest ih =>
      obtain ⟨k1, v1⟩ := p
      simp only [List.map_cons, List.mem_cons] at h
      push_neg at h
      simp [dictGet, h.1, ih h.2]

theorem dictGet_dictRemove_self {α : Type} (l : List (String × α)) (k : String)
    (h : (l.map Prod.fst).Nodup) : dictGet (dictRemove l k) k = none := by
  induction l with
  | nil => rfl
  | cons p rest ih =>
      obtain ⟨k1, v1⟩ := p
      simp only [List.map_cons, List.nodup_cons] at h
      by_cases hk : k = k1
      · rw [hk]
        simp only [dictRemove, if_pos rfl]
        exact dictGet_eq_none_of_not_mem rest k1 h.1
      · simp [dictRemove, hk, dictGet, ih h.2]

/-! ## C3 — model identifier parsing -/

/-- C3 counterexample: the parser does not require the two parts to be
non-empty — an identifier with an empty model name (or an empty
provider name) parses successfully instead of raising a validation
failure. -/
theorem c3_counterexample :
    parseModel "anthropic/" = .ok ("anthropic", "") ∧
    parseModel "/m" = .ok ("", "m") := by
  constructor <;> rfl

/-- C3 (amended): parsing a composite model identifier splits it on the
first "/"; an identifier containing no "/" raises a validation failure
whose message mentions the expected "provider/model_name" format; the
two resulting parts are NOT validated for non-emptiness — an empty
provider or model name is accepted by the parser. -/
theorem c3_parse_model (model : String) (h : model.data.contains '/' = false) :
    parseModel model = .error (.valueError
      ("Invalid model name: " ++ model ++
        ". Expected format: \"provider/model_name\".")) ∧
    parseModel "anthropic/" = .ok ("anthropic", "") ∧
    parseModel "/m" = .ok ("", "m") ∧
    parseModel "a/b/c" = .ok ("a", "b/c") := by
  refine ⟨?_, by rfl, by rfl, by rfl⟩
  simp only [parseModel, h]
  rfl

/-- C3 witness: `parse_model("bad-format")` raises the validation
failure. -/
theorem c3_parse_model_witness :
    ("bad-format" : String).data.contains '/' = false ∧
    (parseModel "bad-format" = .error (.valueError
      ("Invalid model name: " ++ "bad-format" ++
        ". Expected format: \"provider/model_name\".")) ∧
     parseModel "anthropic/" = .ok ("anthropic", "") ∧
     parseModel "/m" = .ok ("", "m") ∧
     parseModel "a/b/c" = .ok ("a", "b/c")) :=
  ⟨by decide, c3_parse_model "bad-format" (by decide)⟩



/-! ## C4 — missing user message validation -/

/-- C4: a call to `stream` or `send` whose input contains no message
with role "user" raises the validation failure with zero provider
resolutions and zero iterations — nothing else is observed. -/
theorem c4_missing_user (providerStream : Nat → List Message)
    (providerSend : Nat → Message) (tools : List Tool)
    (messages : List Message) (max_iterations : Nat)
    (h : ∀ m ∈ messages, m.role ≠ "user") :
    bigTalkStream providerStream tools messages max_iterations =
      { events := []
        error := some (.valueError
          "At least one user message is required to generate a response.")
        resolverCalls := 0 } ∧
    bigTalkSend providerSend tools messages max_iterations =
      { result := .error (.valueError
          "At least one user message is required to generate a response.")
        resolverCalls := 0 } := by
  have hany : (messages.any fun m => m.role = "user") = false := by
    simp only [List.any_eq_false, decide_eq_true_eq]
    exact h
  exact ⟨by simp [bigTalkStream, hany], by simp [bigTalkSend, hany]⟩

/-- C4 witness: scenario S4, `stream("mock/m", [System("x")])`. -/
theorem c4_missing_user_witness :
    (∀ m ∈ [Message.system "x"], m.role ≠ "user") ∧
    (bigTalkStream (fun _ => []) [] [Message.system "x"] 10 =
      { events := []
        error := some (.valueError
          "At least one user message is required to generate a response.")
        resolverCalls := 0 } ∧
     bigTalkSend (fun _ => Message.system "x") [] [Message.system "x"] 10 =
      { result := .error (.valueError
          "At least one user message is required to generate a response.")
        resolverCalls := 0 }) :=
  ⟨by decide, c4_missing_user (fun _ => []) (fun _ => Message.system "x") []
    [Message.system "x"] 10 (by decide)⟩

/-! ## Middleware stack composition lemmas -/

theorem registerAll_spec (tags : List String) :
    ∀ s : MiddlewareStack Unit (List String),
      tags.foldl (fun s t => s.use (traceMiddleware t)) s =
        { middleware := s.middleware ++ tags.map traceMiddleware
          base_handler := s.base_handler } := by
  induction tags with
  | nil => intro s; simp
  | cons t rest ih =>
      intro s
      rw [List.foldl_cons, ih]
      simp [MiddlewareStack.use]

theorem build_eq_foldr {C R : Type} (s : MiddlewareStack C R) :
    s.build = s.middleware.foldr wrapMw s.base_handler := by
  unfold MiddlewareStack.build
  rw [List.foldl_reverse]

theorem foldr_traceMiddleware (tags : List String) :
    (tags.map traceMiddleware).foldr wrapMw terminalTrace () =
      tags.map (fun t => t ++ "_enter") ++ ["terminal"]
        ++ tags.reverse.map (fun t => t ++ "_exit") := by
  induction tags with
  | nil => rfl
  | cons t rest ih =>
      simp only [List.map_cons, List.foldr_cons, List.reverse_cons, List.map_append,
        List.map_nil]
      show traceMiddleware t
        ((rest.map traceMiddleware).foldr wrapMw terminalTrace) () = _
      rw [traceMiddleware]
      simp [ih]

/-! ## C1 — scenario S2: single tool round-trip

The claim expects three yielded events.  The code instead raises: the
loop passes `iteration=` to the `ToolExecutionContext` constructor
(stream.py lines 60-65), but the dataclass declares no such field
(tool_execution.py lines 11-15), so the construction raises `TypeError`
after the first aggregate has been yielded and before any tool runs. -/

/-- C1: evaluating the S2 scenario — `add` tool registered, mock
provider yielding the ToolUse aggregate at iteration 0 — the stream
yields only the first aggregate and then fails with the `TypeError`
from the `ToolExecutionContext` construction, instead of the claimed
three events; the second iteration is never reached. -/
theorem c1_s2_type_error :
    bigTalkStream s2Provider [s2AddTool] [s2UserMessage] 10 =
      { events := [s2Aggregate0]
        error := some (.typeError
          "ToolExecutionContext.__init__ got an unexpected keyword argument iteration")
        resolverCalls := 1 } := by
  rfl

/-! ## C2 — tool failures are captured per tool -/

/-- C2: for every context handed to the terminal tool-execution handler
the returned task list has one result per tool_use; the i-th result is
determined by the i-th tool_use alone: an unknown tool name yields an
`is_error=true` result carrying "Tool <name> not found", a tool whose
function raises yields an `is_error=true` result carrying the failure
message, and a tool whose function succeeds yields its own
`is_error=false` result — no exception escapes the tasks. -/
theorem c2_error_isolation (ctx : ToolExecutionContext) (i : Nat)
    (h : i < ctx.tool_uses.length) :
    (baseToolExecutionHandler ctx).length = ctx.tool_uses.length ∧
    (∀ tu, ctx.tool_uses[i]? = some tu →
      ((dictGet (buildToolMap ctx.tools) tu.name = none →
          (baseToolExecutionHandler ctx)[i]? =
            some { tool_use_id := tu.id
                   result := "Tool " ++ tu.name ++ " not found"
                   is_error := true }) ∧
       (∀ tool, dictGet (buildToolMap ctx.tools) tu.name = some tool →
          (∀ e, tool.func tu.params = .error e →
            (baseToolExecutionHandler ctx)[i]? =
              some { tool_use_id := tu.id, result := e, is_error := true }) ∧
          (∀ v, tool.func tu.params = .ok v →
            (baseToolExecutionHandler ctx)[i]? =
              some { tool_use_id := tu.id
                     result := serializeResult v
                     is_error := false })))) := by
  constructor
  · simp [baseToolExecutionHandler]
  · intro tu htu
    constructor
    · intro hnone
      simp [baseToolExecutionHandler, List.getElem?_map, htu, hnone]
    · intro tool htool
      constructor
      · intro e he
        simp [baseToolExecutionHandler, List.getElem?_map, htu, htool,
          executeToolTask, he]
      · intro v hv
        simp [baseToolExecutionHandler, List.getElem?_map, htu, htool,
          executeToolTask, hv]

/-- C2 witness: `exCtx` mixes a succeeding tool, a raising tool and a
missing tool name; instantiate the theorem at index 1 (the raising
tool) and check the neighbouring results directly. -/
theorem c2_error_isolation_witness :
    (1 < exCtx.tool_uses.length ∧
     ((baseToolExecutionHandler exCtx).length = exCtx.tool_uses.length ∧
      (∀ tu, exCtx.tool_uses[1]? = some tu →
        ((dictGet (buildToolMap exCtx.tools) tu.name = none →
            (baseToolExecutionHandler exCtx)[1]? =
              some { tool_use_id := tu.id
                     result := "Tool " ++ tu.name ++ " not found"
                     is_error := true }) ∧
         (∀ tool, dictGet (buildToolMap exCtx.tools) tu.name = some tool →
            (∀ e, tool.func tu.params = .error e →
              (baseToolExecutionHandler exCtx)[1]? =
                some { tool_use_id := tu.id, result := e, is_error := true }) ∧
            (∀ v, tool.func tu.params = .ok v →
              (baseToolExecutionHandler exCtx)[1]? =
                some { tool_use_id := tu.id
                       result := serializeResult v
                       is_error := false })))))) ∧
    baseToolExecutionHandler exCtx =
      [{ tool_use_id := "1", result := "A", is_error := false },
       { tool_use_id := "2", result := "boom", is_error := true },
       { tool_use_id := "3", result := "Tool ghost not found", is_error := true }] :=
  ⟨⟨by decide, c2_error_isolation exCtx 1 (by decide)⟩, by rfl⟩

/-! ## C5 — add_provider duplicate rejection, override and eviction -/

theorem getProvider_miss {P : Type} (st : ProviderRegistry P) (n : String)
    (f : Factory P) (h1 : dictGet st.providers n = none)
    (h2 : dictGet st.provider_factories n = some f) :
    getProvider st n =
      .ok (f.produce, { st with providers := dictSet st.providers n f.produce },
        [f.id]) := by
  unfold getProvider
  rw [h1, h2]

/-- C5: registering a provider name already present in either the
factory map or the instance cache with `override=false` raises the
validation failure and leaves the registry unchanged; with
`override=true` the factory is replaced, any cached instance for the
name is evicted, and the next dispatch to the name re-instantiates via
the new factory (invoking it exactly once). -/
theorem c5_add_provider {P : Type} (st : ProviderRegistry P) (name : String)
    (f g : Factory P)
    (hnd : (st.providers.map Prod.fst).Nodup)
    (h : dictContains st.providers name = true ∨
         dictContains st.provider_factories name = true) :
    addProvider st name f false =
      (.error (.valueError ("Provider \"" ++ name ++ "\" is already registered.")), st) ∧
    (addProvider st name g true).1 = .ok () ∧
    dictGet (addProvider st name g true).2.provider_factories name = some g ∧
    dictGet (addProvider st name g true).2.providers name = none ∧
    ∃ st2, getProvider (addProvider st name g true).2 name =
      .ok (g.produce, st2, [g.id]) := by
  have hcond : (dictContains st.providers name
      || dictContains st.provider_factories name) = true := by
    rcases h with h | h <;> simp [h]
  have hover : addProvider st name g true =
      (.ok (),
        { providers := (if dictContains st.providers name then
              dictRemove st.providers name else st.providers),
          provider_factories := dictSet st.provider_factories name g }) := by
    simp [addProvider]
  have hps : dictGet (addProvider st name g true).2.providers name = none := by
    rw [hover]
    by_cases hc : dictContains st.providers name
    · simp only [hc, if_true]
      exact dictGet_dictRemove_self st.providers name hnd
    · simp only [hc, if_false]
      simp only [dictContains, Option.isSome] at hc
      revert hc
      match dictGet st.providers name with
      | none => intro _; rfl
      | some v => intro hc; simp at hc
  refine ⟨by simp [addProvider, hcond], by rw [hover], ?_, hps, ?_⟩
  · rw [hover]
    exact dictGet_dictSet_self st.provider_factories name g
  · have hfac : dictGet (addProvider st name g true).2.provider_factories name
        = some g := by
      rw [hover]
      exact dictGet_dictSet_self st.provider_factories name g
    exact ⟨_, getProvider_miss (addProvider st name g true).2 name g hps hfac⟩

/-- C5 witness: a registry whose factory map already holds "x". -/
theorem c5_add_provider_witness :
    ((exRegistry.providers.map Prod.fst).Nodup ∧
     (dictContains exRegistry.providers "x" = true ∨
      dictContains exRegistry.provider_factories "x" = true)) ∧
    (addProvider exRegistry "x" { id := "fx", produce := 1 } false =
      (.error (.valueError ("Provider \"" ++ "x" ++ "\" is already registered.")),
        exRegistry) ∧
     (addProvider exRegistry "x" { id := "f2", produce := 9 } true).1 = .ok () ∧
     dictGet (addProvider exRegistry "x"
       { id := "f2", produce := 9 } true).2.provider_factories "x" =
         some { id := "f2", produce := 9 } ∧
     dictGet (addProvider exRegistry "x"
       { id := "f2", produce := 9 } true).2.providers "x" = none ∧
     ∃ st2, getProvider (addProvider exRegistry "x"
       { id := "f2", produce := 9 } true).2 "x" = .ok (9, st2, ["f2"])) :=
  ⟨⟨by decide, Or.inr (by decide)⟩,
    c5_add_provider exRegistry "x" { id := "fx", produce := 1 }
      { id := "f2", produce := 9 } (by decide) (Or.inr (by decide))⟩

/-! ## C6 — lazy, at-most-once factory invocation -/

theorem getProvider_preserves_factories {P : Type} (st : ProviderRegistry P)
    (n : String) (p : P) (st2 : ProviderRegistry P) (log : List String)
    (h : getProvider st n = .ok (p, st2, log)) :
    st2.provider_factories = st.provider_factories := by
  unfold getProvider at h
  revert h
  match dictGet st.providers n with
  | some q => intro h; cases h; rfl
  | none =>
      match dictGet st.provider_factories n with
      | some f => intro h; cases h; rfl
      | none => intro h; cases h

theorem dictGet_mem {α : Type} (l : List (String × α)) (k : String) (v : α)
    (h : dictGet l k = some v) : (k, v) ∈ l := by
  induction l with
  | nil => cases h
  | cons p rest ih =>
      obtain ⟨k1, v1⟩ := p
      by_cases hk : k = k1
      · subst hk
        simp only [dictGet, if_pos rfl] at h
        cases h
        exact List.mem_cons_self _ _
      · simp only [dictGet, if_neg hk] at h
        exact List.mem_cons_of_mem _ (ih h)

theorem runDispatches_cached {P : Type} (name : String) (p : P) :
    ∀ (j : Nat) (st : ProviderRegistry P),
      dictGet st.providers name = some p →
      runDispatches st (List.replicate j name) = (st, []) := by
  intro j
  induction j with
  | zero => intro st _; rfl
  | succ j ih =>
      intro st hc
      show runDispatches st (name :: List.replicate j name) = (st, [])
      rw [runDispatches, getProvider, hc]
      simp [ih st hc]

theorem runDispatches_foreign {P : Type} (fid : String) (name : String) :
    ∀ (others : List String) (st : ProviderRegistry P),
      (∀ n g, dictGet st.provider_factories n = some g → g.id = fid → n = name) →
      name ∉ others →
      fid ∉ (runDispatches st others).2 := by
  intro others
  induction others with
  | nil => intro st _ _; simp [runDispatches]
  | cons n rest ih =>
      intro st h3 h4
      have hn : n ≠ name := fun hq => h4 (hq ▸ List.mem_cons_self _ _)
      have h4r : name ∉ rest := fun hq => h4 (List.mem_cons_of_mem _ hq)
      rw [runDispatches]
      match hgp : getProvider st n with
      | .error _ => simp
      | .ok (p, st2, log) =>
          have hfac := getProvider_preserves_factories st n p st2 log hgp
          have hlog : fid ∉ log := by
            unfold getProvider at hgp
            revert hgp
            match dictGet st.providers n with
            | some q => intro hgp; cases hgp; simp
            | none =>
                match hf : dictGet st.provider_factories n with
                | some fac =>
                    intro hgp
                    cases hgp
                    simp only [List.mem_singleton]
                    intro hq
                    exact hn (h3 n fac hf hq.symm)
                | none => intro hgp; cases hgp
          have hrest : fid ∉ (runDispatches st2 rest).2 :=
            ih st2 (fun n2 g2 hg2 hid2 => h3 n2 g2 (hfac ▸ hg2) hid2) h4r
          simp only [List.mem_append]
          intro hq
          rcases hq with hq | hq
          · exact hlog hq
          · exact hrest hq

/-- C6: a registered factory is invoked lazily and at most once per
engine: a name never dispatched to never invokes its factory (no
dispatch sequence avoiding the name ever logs its id), and dispatching
to the name any positive number of times invokes the factory exactly
once, the instance being served from the cache thereafter. -/
theorem c6_lazy_singleton {P : Type} (st : ProviderRegistry P) (name : String)
    (f : Factory P) (k : Nat) (others : List String)
    (h1 : dictGet st.providers name = none)
    (h2 : dictGet st.provider_factories name = some f)
    (h3 : ∀ n g, dictGet st.provider_factories n = some g → g.id = f.id → n = name)
    (h4 : name ∉ others) :
    (runDispatches st (List.replicate k name)).2 = (if k = 0 then [] else [f.id]) ∧
    f.id ∉ (runDispatches st others).2 := by
  constructor
  · match k with
    | 0 => rfl
    | k + 1 =>
        show (runDispatches st (name :: List.replicate k name)).2 = _
        rw [runDispatches, getProvider, h1, h2]
        simp only
        rw [runDispatches_cached name f.produce k _ (dictGet_dictSet_self _ _ _)]
        simp
  · exact runDispatches_foreign f.id name others st h3 h4

/-- C6 witness: factory "fx" for name "x" in `exRegistry`, dispatched
twice, with an unrelated dispatch sequence avoiding "x". -/
theorem c6_lazy_singleton_witness :
    (dictGet exRegistry.providers "x" = none ∧
     dictGet exRegistry.provider_factories "x" = some { id := "fx", produce := 1 } ∧
     "x" ∉ ["y", "z"]) ∧
    ((runDispatches exRegistry (List.replicate 2 "x")).2 =
      (if 2 = 0 then [] else ["fx"]) ∧
     "fx" ∉ (runDispatches exRegistry ["y", "z"]).2) :=
  ⟨⟨by decide, by decide, by decide⟩,
    c6_lazy_singleton exRegistry "x" { id := "fx", produce := 1 } 2 ["y", "z"]
      (by decide) (by decide)
      (by
        intro n g hg hid
        simp only [exRegistry, dictGet] at hg
        split_ifs at hg with hx hy
        · exact hx
        · cases hg
          simp at hid)
      (by decide)⟩

/-! ## C7 — middleware composition order -/

/-- C7: building a stack with middlewares registered in list order
composes them around the terminal handler so the first registered is
outermost: the observed call order is every middleware entering in
registration order, then the terminal handler, then every middleware
exiting in reverse registration order (for `[A, B]`: A_enter, B_enter,
terminal, B_exit, A_exit). -/
theorem c7_middleware_order (tags : List String) :
    (registerAll tags).build () =
      tags.map (fun t => t ++ "_enter") ++ ["terminal"]
        ++ tags.reverse.map (fun t => t ++ "_exit") := by
  rw [registerAll, registerAll_spec, build_eq_foldr]
  simpa using foldr_traceMiddleware tags

/-! ## C8 — serialization of successful tool return values -/

theorem jsonEscapeChar_plain (c : Char) (h1 : 32 ≤ c.toNat) (h2 : c ≠ '"')
    (h3 : c ≠ '\\') : jsonEscapeChar c = String.singleton c := by
  have hn : c ≠ '\n' := by intro hc; rw [hc] at h1; exact absurd h1 (by decide)
  have ht : c ≠ '\t' := by intro hc; rw [hc] at h1; exact absurd h1 (by decide)
  have hr : c ≠ '\r' := by intro hc; rw [hc] at h1; exact absurd h1 (by decide)
  have hb : c ≠ '\x08' := by intro hc; rw [hc] at h1; exact absurd h1 (by decide)
  have hf : c ≠ '\x0c' := by intro hc; rw [hc] at h1; exact absurd h1 (by decide)
  have hlt : ¬ c.toNat < 32 := by omega
  rw [jsonEscapeChar, if_neg h2, if_neg h3, if_neg hn, if_neg ht, if_neg hr,
    if_neg hb, if_neg hf, if_neg hlt]

theorem escapeChars_plain (cs : List Char)
    (h : ∀ c ∈ cs, 32 ≤ c.toNat ∧ c ≠ '"' ∧ c ≠ '\\') :
    escapeChars cs = String.mk cs := by
  induction cs with
  | nil => rfl
  | cons c rest ih =>
      obtain ⟨h1, h2, h3⟩ := h c (List.mem_cons_self _ _)
      rw [escapeChars, jsonEscapeChar_plain c h1 h2 h3,
        ih (fun x hx => h x (List.mem_cons_of_mem _ hx))]
      rfl

/-- C8: a successfully invoked tool produces
`ToolResult \x7b tool_use_id = tu.id, result = serializeResult v,
is_error = false \x7d`, where the serialized string is: the string
itself for a string value, "null" for None, the `json.dumps` encoding
for any other serializable value (with characters that need no JSON
escape — including all non-ASCII — passed through unchanged), and the
value's `str()` form when JSON encoding raises. -/
theorem c8_serialize (tool : Tool) (tu : ToolUse) (v : PyVal)
    (hv : tool.func tu.params = .ok v) :
    executeToolTask tool tu =
      { tool_use_id := tu.id, result := serializeResult v, is_error := false } ∧
    (∀ s, v = .vStr s → serializeResult v = s) ∧
    (v = .vNone → serializeResult v = "null") ∧
    (∀ j, (∀ s, v ≠ .vStr s) → v ≠ .vNone → jsonDumps v = .ok j →
      serializeResult v = j) ∧
    ((∀ s, v ≠ .vStr s) → v ≠ .vNone → jsonDumps v = .error () →
      serializeResult v = strPy v) ∧
    (∀ s : String, (∀ c ∈ s.data, 32 ≤ c.toNat ∧ c ≠ '"' ∧ c ≠ '\\') →
      jsonDumps (.vStr s) = .ok ("\"" ++ s ++ "\"")) := by
  refine ⟨by simp [executeToolTask, hv], ?_, ?_, ?_, ?_, ?_⟩
  · intro s hs
    rw [hs]
    rfl
  · intro hs
    rw [hs]
    rfl
  · intro j hns hnn hj
    cases v with
    | vStr s => exact absurd rfl (hns s)
    | vNone => exact absurd rfl hnn
    | vInt n => simp [serializeResult, hj]
    | vBool b => simp [serializeResult, hj]
    | vList xs => simp [serializeResult, hj]
    | vDict xs => simp [serializeResult, hj]
    | vOpaque t r => simp [serializeResult, hj]
  · intro hns hnn hj
    cases v with
    | vStr s => exact absurd rfl (hns s)
    | vNone => exact absurd rfl hnn
    | vInt n => simp [serializeResult, hj]
    | vBool b => simp [serializeResult, hj]
    | vList xs => simp [serializeResult, hj]
    | vDict xs => simp [serializeResult, hj]
    | vOpaque t r => simp [serializeResult, hj]
  · intro s hs
    have hesc : escapeChars s.data = s := by
      rw [escapeChars_plain s.data hs]
    simp [jsonDumps, jsonQuote, hesc]

/-- C8 witness: a tool returning the non-string, non-None value
`[1, "é"]` serializes through `json.dumps` without escaping the
non-ASCII character; a string and an unserializable object follow the
other branches. -/
theorem c8_serialize_witness :
    ((fun _ => Except.ok (PyVal.vList [.vInt 1, .vStr "é"]) : ToolFunc)
        [("x", PyVal.vInt 0)] = .ok (PyVal.vList [.vInt 1, .vStr "é"]) ∧
     executeToolTask
        { name := "t", description := "", parameters := emptySchema
          func := fun _ => .ok (PyVal.vList [.vInt 1, .vStr "é"]), metadata := [] }
        { id := "u1", name := "t", params := [("x", PyVal.vInt 0)], metadata := none } =
       { tool_use_id := "u1"
         result := serializeResult (PyVal.vList [.vInt 1, .vStr "é"])
         is_error := false }) ∧
    serializeResult (PyVal.vList [.vInt 1, .vStr "é"]) = "[1, \"é\"]" ∧
    serializeResult (PyVal.vStr "hi") = "hi" ∧
    serializeResult PyVal.vNone = "null" ∧
    serializeResult (PyVal.vOpaque "object" "<object at 0x1>") = "<object at 0x1>" :=
  ⟨⟨rfl,
    (c8_serialize
      { name := "t", description := "", parameters := emptySchema
        func := fun _ => .ok (PyVal.vList [.vInt 1, .vStr "é"]), metadata := [] }
      { id := "u1", name := "t", params := [("x", PyVal.vInt 0)], metadata := none }
      (PyVal.vList [.vInt 1, .vStr "é"]) rfl).1⟩,
   by
     have hd : jsonDumps (PyVal.vList [PyVal.vInt 1, PyVal.vStr "é"]) =
         .ok "[1, \"é\"]" := by
       have hq : jsonQuote "é" = "\"é\"" := by
         simp [jsonQuote, escapeChars, jsonEscapeChar]
         rfl
       simp only [jsonDumps, jsonDumpsList, hq]
       rfl
     simp [serializeResult, hd],
   rfl, rfl,
   by simp [serializeResult, jsonDumps, strPy, reprPy]⟩

/-! ## C9 and C10 — schema reflection -/

theorem setDescription_self (s : JSchema) : s.setDescription s.description = s := by
  cases s
  rfl

theorem bindOk {eTy a b : Type} (x : a) (f : a → Except eTy b) :
    ((Except.ok x : Except eTy a) >>= f) = f x := rfl

/-- C9: a parameter declared `Annotated[str | None, desc]` with default
`None` reflects to a property of type "string" carrying the annotation
description, and the parameter is absent from the top-level `required`
list — the reflector re-evaluates the origin on the unwrapped inner
union instead of reusing the stale Annotated origin. -/
theorem c9_annotated_optional (pname desc fname fdesc : String) (f : ToolFunc)
    (h1 : pname ≠ "self") (h2 : pname ≠ "cls") (h3 : desc ≠ "") :
    fromFunc fname fdesc f [{ name := pname, default := some .vNone }]
      [(pname, .annotated (.union [.str, .noneType]) [.strArg desc])] [] [] [] [] =
      .ok { name := fname
            description := fdesc
            parameters := .mk (some "object") none none none
              (some [(pname,
                .mk (some "string") (some desc) none none none none none none)])
              (some []) none none
            func := f
            metadata := [] } := by
  have hstr : schemaFromType PyType.str =
      .ok (.mk (some "string") none none none none none none none) := by
    simp [schemaFromType, schemaCore]
  have hcore : schemaCore (.union [PyType.str, PyType.noneType]) (some desc) =
      .ok (.mk (some "string") (some desc) none none none none none none) := by
    rw [schemaCore]
    split
    · next heq => simp [PyType.isNone] at heq
    · next t0 tail heq =>
        simp only [List.filter, PyType.isNone, Bool.not_true, Bool.not_false,
          List.cons.injEq] at heq
        obtain ⟨h5, h6⟩ := heq
        subst h5
        simp [hstr, bindOk, pyDescOr, strTruthy, h3, JSchema.setDescription,
          JSchema.description]
  have hschema :
      schemaFromType (.annotated (.union [.str, .noneType]) [.strArg desc]) =
        .ok (.mk (some "string") (some desc) none none none none none none) := by
    simp [schemaFromType, firstStringExtra, hcore]
  simp [fromFunc, fromFuncLoop, h1, h2, hschema, hoistSchema, hoistProps,
    JSchema.setDefs, dictGet, bindOk]

/-- C9 witness: the concrete parameter `p : Annotated[str | None,
"desc"] = None`. -/
theorem c9_annotated_optional_witness :
    (("p" : String) ≠ "self" ∧ ("p" : String) ≠ "cls" ∧ ("desc" : String) ≠ "") ∧
    fromFunc "tool_fn" "" (fun _ => .ok .vNone)
      [{ name := "p", default := some .vNone }]
      [("p", .annotated (.union [.str, .noneType]) [.strArg "desc"])] [] [] [] [] =
      .ok { name := "tool_fn"
            description := ""
            parameters := .mk (some "object") none none none
              (some [("p",
                .mk (some "string") (some "desc") none none none none none none)])
              (some []) none none
            func := fun _ => .ok .vNone
            metadata := [] } :=
  ⟨⟨by decide, by decide, by decide⟩,
    c9_annotated_optional "p" "desc" "tool_fn" "" (fun _ => .ok .vNone)
      (by decide) (by decide) (by decide)⟩

/-- C10: reflecting a union of two or more distinct non-None types does
not fail with a type-not-supported error: the schema of the first
non-None branch is produced and every remaining branch is silently
ignored (its description field being rewritten to itself). -/
theorem c10_union_first_branch (args : List PyType) (t0 : PyType)
    (rest : List PyType) (s : JSchema)
    (h : args.filter (fun a => !a.isNone) = t0 :: rest)
    (hs : schemaFromType t0 = .ok s) :
    schemaFromType (.union args) = .ok s := by
  have h1 : schemaFromType (.union args) = schemaCore (.union args) none := by
    simp [schemaFromType]
  rw [h1]
  rw [schemaCore]
  split
  · next heq =>
      rw [h] at heq
      cases heq
  · next t0b restb heq =>
      rw [h] at heq
      cases heq
      rw [hs]
      simp [bindOk, pyDescOr, strTruthy, setDescription_self]

/-- C10 witness: `int | str` reflects to the integer schema, ignoring
the `str` branch. -/
theorem c10_union_first_branch_witness :
    ([PyType.int, PyType.str].filter (fun a => !a.isNone) =
      PyType.int :: [PyType.str] ∧
     schemaFromType PyType.int =
      .ok (.mk (some "integer") none none none none none none none)) ∧
    schemaFromType (.union [PyType.int, PyType.str]) =
      .ok (.mk (some "integer") none none none none none none none) :=
  ⟨⟨rfl, by simp [schemaFromType, schemaCore]⟩,
    c10_union_first_branch [PyType.int, PyType.str] PyType.int [PyType.str]
      (.mk (some "integer") none none none none none none none)
      rfl (by simp [schemaFromType, schemaCore])⟩

end BigTalk
